import Mathlib

/- Verification development for the Azure Monitor scaler of the keda
repository (pkg/scalers/azure_monitor.go).

Shallow-embedding conventions used throughout this file:
- A Go function returning a pair `(T, error)` is modelled as
  `Option (T × Option Err)`: the outer `none` denotes a runtime panic
  (nil-pointer dereference or index out of range), `some (v, some e)` is the
  Go return `(v, e)` with a non-nil error, and `some (v, none)` is success.
  A Go function returning `(*T, error)` with exactly one meaningful side is
  modelled as `Option (GoResult Err T)` instead.
- Go slices distinguish nil slices from non-nil (possibly empty) ones, and a
  pointer to a slice may itself be nil; a `*[]T` field is therefore modelled
  as `Option (GoSlice T)` with `none` for the nil pointer.
- float64 values flowing through the pipeline are modelled as exact
  rationals; the int64 Count field is modelled as an integer.
- The wall clock is passed in explicitly: `now` is the clock reading in
  seconds since the Unix epoch.  The Go source reads the clock up to three
  times within one call of formatTimeSpan; the readings are modelled as one
  instant, which the specification explicitly tolerates (clock skew between
  the two boundary captures is declared not a correctness defect).
- The external insights client (network call) is passed in as a function
  argument; credential handling (createMetricsClient) is outside the core
  logic and not modelled.
-/

/-- Outcome of a Go function returning `(*T, error)` where exactly one side is
meaningful: `.ok v` models `(&v, nil)` and `.err e` models `(nil, e)`. -/
inductive GoResult (ε α : Type) where
  | err (e : ε)
  | ok (a : α)
  deriving DecidableEq, Repr

/-- A Go slice value: Go distinguishes a nil slice from a non-nil (possibly
empty) one; `[]T(nil) == nil` holds while `[]T{} == nil` does not, and both
have length 0. -/
inductive GoSlice (α : Type) where
  | nilSlice
  | mk (l : List α)
  deriving DecidableEq, Repr

def GoSlice.toList {α : Type} : GoSlice α → List α
  | .nilSlice => []
  | .mk l => l

def GoSlice.isNil {α : Type} : GoSlice α → Bool
  | .nilSlice => true
  | .mk _ => false

def GoSlice.length {α : Type} (s : GoSlice α) : Nat := s.toList.length

/-- Model of the Go indexing expression `s[i]`: the result `none` is the
index-out-of-range panic. -/
def GoSlice.idx {α : Type} (s : GoSlice α) (i : Nat) : Option α := s.toList.get? i

/-- Model of Go `strings.Split(s, sep)` for a one-character separator, on the
underlying character list.  Go returns the (n+1) substrings between the n
separator occurrences, so the result is never empty and empty parts are
kept. -/
def splitChars (sep : Char) : List Char → List (List Char)
  | [] => [[]]
  | c :: cs =>
    match splitChars sep cs with
    | [] => [[c]]
    | p :: ps => if c = sep then [] :: p :: ps else (c :: p) :: ps

def goSplit (s : String) (sep : Char) : List String :=
  (splitChars sep s.data).map String.mk

/-- Decimal value of a character list of digits (most significant first). -/
def decDigitsVal (l : List Char) : ℕ :=
  l.foldl (fun acc c => acc * 10 + (c.toNat - 48)) 0

/-- True when the list is a non-empty run of ASCII decimal digits. -/
def allDecDigits (l : List Char) : Bool := !l.isEmpty && l.all (·.isDigit)

/-- Model of Go `strconv.Atoi`: an optional leading sign followed by at least
one decimal digit, rejected when the value leaves the int64 range.  `none` is
any parse error (Go additionally returns 0, or a clamped value on range
errors, alongside the error; no caller in this file reads that value).  Note
that Go accepts a leading minus sign, so negative components parse
successfully. -/
def goAtoi (s : String) : Option ℤ :=
  match s.data with
  | '+' :: rest =>
    if allDecDigits rest ∧ decDigitsVal rest ≤ 2 ^ 63 - 1 then
      some (decDigitsVal rest) else none
  | '-' :: rest =>
    if allDecDigits rest ∧ decDigitsVal rest ≤ 2 ^ 63 then
      some (-(decDigitsVal rest : ℤ)) else none
  | l =>
    if allDecDigits l ∧ decDigitsVal l ≤ 2 ^ 63 - 1 then
      some (decDigitsVal l) else none

/-- ASCII lower-casing of one character (the case mapping Go applies to the
ASCII aggregation-mode names). -/
def asciiLowerChar (c : Char) : Char :=
  if 65 ≤ c.toNat ∧ c.toNat ≤ 90 then Char.ofNat (c.toNat + 32) else c

/-- ASCII upper-casing of one character. -/
def asciiUpperChar (c : Char) : Char :=
  if 97 ≤ c.toNat ∧ c.toNat ≤ 122 then Char.ofNat (c.toNat - 32) else c

/-- ASCII lower-casing of a string. -/
def goToLower (s : String) : String := String.mk (s.data.map asciiLowerChar)

/-- Model of Go `strings.EqualFold` restricted to ASCII case folding (every
aggregation-mode name compared in the source is ASCII). -/
def goEqualFold (s t : String) : Bool := goToLower s == goToLower t

/-- Model of Go `strings.ToTitle` restricted to ASCII: every letter is mapped
to its title case, which for ASCII is its upper case. -/
def goToTitle (s : String) : String := String.mk (s.data.map asciiUpperChar)

/-- The decimal digit character for `n % 10`. -/
def decDigit (n : ℕ) : Char := Char.ofNat (48 + n % 10)

/-- Two-digit zero-padded decimal rendering (of `n % 100`). -/
def pad2 (n : ℕ) : List Char := [decDigit (n / 10), decDigit n]

/-- Four-digit zero-padded decimal rendering (of `n % 10000`). -/
def pad4 (n : ℕ) : List Char :=
  [decDigit (n / 1000), decDigit (n / 100), decDigit (n / 10), decDigit n]

/-- Proleptic-Gregorian civil date `(year, month, day)` from a count of days
since 1970-01-01, by the standard era-based algorithm; this models the date
computation inside Go `Time.Format` for non-negative Unix times. -/
def civilFromDays (days : ℕ) : ℕ × ℕ × ℕ :=
  let z := days + 719468
  let era := z / 146097
  let doe := z % 146097
  let yoe := (doe - doe / 1460 + doe / 36524 - doe / 146096) / 365
  let y := yoe + era * 400
  let doy := doe - (365 * yoe + yoe / 4 - yoe / 100)
  let mp := (5 * doy + 2) / 153
  let d := doy - (153 * mp + 2) / 5 + 1
  let m := if mp < 10 then mp + 3 else mp - 9
  (if m ≤ 2 then y + 1 else y, m, d)

/-- Model of Go `t.UTC().Format(time.RFC3339)` for a clock reading of `t`
seconds since the Unix epoch; faithful for instants from 1970-01-01 up to
year 9999 (negative instants and five-digit years do not occur in the claims
below). -/
def rfc3339utc (t : ℤ) : String :=
  let n := t.toNat
  let days := n / 86400
  let sod := n % 86400
  let ymd := civilFromDays days
  String.mk (pad4 ymd.1 ++ '-' :: pad2 ymd.2.1 ++ '-' :: pad2 ymd.2.2 ++
    'T' :: pad2 (sod / 3600) ++ ':' :: pad2 (sod % 3600 / 60) ++
    ':' :: pad2 (sod % 60) ++ ['Z'])

/-- Model of Go `math.Round`: the nearest integer, ties rounded half away
from zero, on exact rationals, written with integer arithmetic on the
numerator and denominator so that it evaluates by kernel reduction; the
lemma mathRound_eq below identifies it with the floor/ceil formulation
`if 0 ≤ x then ⌊x + 1/2⌋ else ⌈x - 1/2⌉`. -/
def mathRound (x : ℚ) : ℤ :=
  if 0 ≤ x.num then (2 * x.num + x.den) / (2 * (x.den : ℤ))
  else -((2 * -x.num + x.den) / (2 * (x.den : ℤ)))

/-- Model of the Go conversion `int32(z)` for an integral value: two's
complement wrap-around.  (Out-of-int32-range float-to-int conversions are
implementation-defined in Go; every theorem below only relies on in-range
values, where the conversion is the identity.) -/
def goInt32 (z : ℤ) : ℤ := (z + 2 ^ 31) % 2 ^ 32 - 2 ^ 31

/-- Go int64 arithmetic: two's complement wrap-around on overflow (Go
defines signed integer overflow to wrap). -/
def wrap64 (z : ℤ) : ℤ := (z + 2 ^ 63) % 2 ^ 64 - 2 ^ 63

/-- Model of the Go expression `time.Duration(hours)*time.Hour +
time.Duration(minutes)*time.Minute + time.Duration(seconds)*time.Second`:
a time.Duration is an int64 count of nanoseconds, so each product and each
(left-associated) sum wraps in int64. -/
def goDurationNs (hours minutes seconds : ℤ) : ℤ :=
  wrap64 (wrap64 (wrap64 (hours * 3600000000000) + wrap64 (minutes * 60000000000)) +
    wrap64 (seconds * 1000000000))

/-- The configuration consumed by the scaler (azureMonitorMetadata); the
credential fields (clientID, clientPassword, tenantID) are only handed to the
external authorization collaborator and are omitted here. -/
structure azureMonitorMetadata where
  name : String
  subscriptionID : String
  resourceGroupName : String
  resourceURI : String
  aggregationType : String
  aggregationInterval : String
  filter : String
  deriving DecidableEq, Repr

/-- The assembled query specification (azureExternalMetricRequest). -/
structure azureExternalMetricRequest where
  MetricName : String
  SubscriptionID : String
  ResourceName : String
  ResourceProviderNamespace : String
  ResourceType : String
  Aggregation : String
  Timespan : String
  Filter : String
  ResourceGroup : String
  deriving DecidableEq, Repr

/-- One data point of the insights response (insights.MetricValue): four
optional float64 statistics and an optional int64 count. -/
structure MetricValue where
  Average : Option ℚ
  Total : Option ℚ
  Maximum : Option ℚ
  Minimum : Option ℚ
  Count : Option ℤ
  deriving DecidableEq, Repr

/-- insights.TimeSeriesElement: the field `Data *[]MetricValue`. -/
structure TimeSeriesElement where
  Data : Option (GoSlice MetricValue)
  deriving DecidableEq, Repr

/-- insights.Metric: the field `Timeseries *[]TimeSeriesElement`. -/
structure Metric where
  Timeseries : Option (GoSlice TimeSeriesElement)
  deriving DecidableEq, Repr

/-- insights.Response: the field `Value *[]Metric`. -/
structure Response where
  Value : Option (GoSlice Metric)
  deriving DecidableEq, Repr

/-- The error of formatTimeSpan ("Errors parsing metricAggregationInterval:
%v, %v, %v"): one slot per H:M:S component; `some p` records the offending
component text `p` (embedded by Go in the strconv.NumError), `none` is the
`<nil>` printed for a component that parsed. -/
structure TimespanErr where
  herr : Option String
  merr : Option String
  serr : Option String
  deriving DecidableEq, Repr

/-- The error of verifyAggregationTypeIsSupported ("Unsupported aggregation
type %s"), carrying the ToTitle-cased requested aggregation. -/
structure VerifyErr where
  aggTitled : String
  deriving DecidableEq, Repr

/-- The errors produced by extractValue, each carrying the context printed by
the corresponding fmt.Errorf call. -/
inductive ExtractErr where
  | emptyMetricResponse (ns metricName aggTitled : String)
  | noTimeseries (ns metricName aggTitled : String)
  | noDataPoints (ns metricName aggTitled : String)
  | unsupportedOrMissingAggregation (ns metricName agg : String)
  deriving DecidableEq, Repr

/-- The error union of getAzureMetric; Go returns a plain `error` value, and
the constructors record which statement produced it. -/
inductive GetErr where
  | validation (msg : String)
  | query (msg : String)
  | extract (e : ExtractErr)
  deriving DecidableEq, Repr

/-- The error of executeRequest ("Error getting azure monitor metric %s:
%s"). -/
structure ExecErr where
  metricName : String
  inner : GetErr
  deriving DecidableEq, Repr

/-- The error union of GetAzureMetricValue. -/
inductive TopErr where
  | create (e : TimespanErr)
  | exec (e : ExecErr)
  deriving DecidableEq, Repr

/-- Model of (azureExternalMetricRequest).validate (lines 143-154): the first
empty required field, in source order, yields the error message; `none` is
success. -/
def azureExternalMetricRequest.validate (amr : azureExternalMetricRequest) : Option String :=
  if amr.MetricName = "" then some "metricName is required"
  else if amr.ResourceGroup = "" then some "resourceGroup is required"
  else if amr.SubscriptionID = "" then
    some "subscriptionID is required. set a default or pass via label selectors"
  else none

/-- Model of (azureExternalMetricRequest).metricResourceURI (lines 156-163). -/
def azureExternalMetricRequest.metricResourceURI (amr : azureExternalMetricRequest) : String :=
  "/subscriptions/" ++ amr.SubscriptionID ++ "/resourceGroups/" ++ amr.ResourceGroup ++
    "/providers/" ++ amr.ResourceProviderNamespace ++ "/" ++ amr.ResourceType ++
    "/" ++ amr.ResourceName

/-- The Go expression `data[len(data)-1]`: `none` is the index-out-of-range
panic, reached exactly when `data` is empty (`len(data)-1` is then -1). -/
def lastPoint (data : List MetricValue) : Option MetricValue :=
  data.get? (data.length - 1)

/-- One `else if` arm of verifyAggregationTypeIsSupported:
`strings.EqualFold(mode, aggregationType) && data[len(data)-1].field != nil`
selects `field` of the last data point, otherwise control falls through to
`next`; the index is only evaluated when the fold test succeeds (Go `&&`
short-circuits), and evaluating it on empty data panics. -/
def verifyBranch (mode : String) (field : MetricValue → Option ℚ)
    (aggregationType : String) (data : List MetricValue)
    (next : Option (GoResult VerifyErr ℚ)) : Option (GoResult VerifyErr ℚ) :=
  if goEqualFold mode aggregationType then
    match lastPoint data with
    | none => none
    | some p =>
      match field p with
      | some v => some (.ok v)
      | none => next
  else next

/-- Model of verifyAggregationTypeIsSupported (lines 184-202): the five-way
if/else chain over the aggregation modes, ending in "Unsupported aggregation
type %s" with the ToTitle-cased mode; the Count branch converts the int64
count to float64. -/
def verifyAggregationTypeIsSupported (aggregationType : String)
    (data : List MetricValue) : Option (GoResult VerifyErr ℚ) :=
  verifyBranch "Average" MetricValue.Average aggregationType data
    (verifyBranch "Total" MetricValue.Total aggregationType data
      (verifyBranch "Maximum" MetricValue.Maximum aggregationType data
        (verifyBranch "Minimum" MetricValue.Minimum aggregationType data
          (verifyBranch "Count" (fun p => p.Count.map fun c => (c : ℚ)) aggregationType data
            (some (.err ⟨goToTitle aggregationType⟩))))))

/-- Model of extractValue (lines 113-141).  The outer `none` is a panic:
dereferencing a nil `Value`, `Timeseries` or `Data` pointer, or indexing
`timeseries[0]` or `data[len(data)-1]` out of range.  Error paths return the
float64 value -1 alongside the error, as the source does. -/
def extractValue (azMetricRequest : azureExternalMetricRequest)
    (metricResult : Response) : Option (ℚ × Option ExtractErr) :=
  match metricResult.Value with
  | none => none
  | some metricVals =>
    if metricVals.length = 0 then
      some (-1, some (.emptyMetricResponse azMetricRequest.ResourceProviderNamespace
        azMetricRequest.MetricName (goToTitle azMetricRequest.Aggregation)))
    else
      match metricVals.idx 0 with
      | none => none
      | some m0 =>
        match m0.Timeseries with
        | none => none
        | some timeseries =>
          if timeseries.isNil then
            some (-1, some (.noTimeseries azMetricRequest.ResourceProviderNamespace
              azMetricRequest.MetricName (goToTitle azMetricRequest.Aggregation)))
          else
            match timeseries.idx 0 with
            | none => none
            | some ts0 =>
              match ts0.Data with
              | none => none
              | some data =>
                if data.isNil then
                  some (-1, some (.noDataPoints azMetricRequest.ResourceProviderNamespace
                    azMetricRequest.MetricName (goToTitle azMetricRequest.Aggregation)))
                else
                  match verifyAggregationTypeIsSupported azMetricRequest.Aggregation
                      data.toList with
                  | none => none
                  | some (.err _) =>
                    some (-1, some (.unsupportedOrMissingAggregation
                      azMetricRequest.ResourceProviderNamespace
                      azMetricRequest.MetricName azMetricRequest.Aggregation))
                  | some (.ok v) => some (v, none)

/-- The per-component slot of the formatTimeSpan error: Go prints the strconv
error (which embeds the offending text) for a failed component and `<nil>`
for a successful one. -/
def atoiErrMark (p : String) : Option String :=
  if (goAtoi p).isSome then none else some p

/-- The instants (start, end) computed by formatTimeSpan, with the pure
formatting step factored out.  The outer `none` is the index-out-of-range
panic on an interval string with fewer than three `:`-separated parts (the
source indexes parts 0..2 without a length check).  The window start is
`Add` of the negated duration: the duration is int64 nanoseconds and wraps
on overflow (goDurationNs), the unary minus wraps too, and Time.Add then
normalizes to a seconds + [0, 1e9) nanoseconds representation, so the
starting second is the floor division of the added nanoseconds — when
nothing overflows this is exactly `now - (hours*3600 + minutes*60 +
seconds)`.  The default branch negates the constant `5 * time.Minute`,
which cannot overflow. -/
def timespanInstants (now : ℤ) (timeSpan : String) :
    Option (GoResult TimespanErr (ℤ × ℤ)) :=
  if timeSpan ≠ "" then
    let parts := goSplit timeSpan ':'
    match parts.get? 0, parts.get? 1, parts.get? 2 with
    | some p0, some p1, some p2 =>
      match goAtoi p0, goAtoi p1, goAtoi p2 with
      | some hours, some minutes, some seconds =>
        some (.ok (now + (wrap64 (-goDurationNs hours minutes seconds)).fdiv 1000000000,
          now))
      | _, _, _ => some (.err ⟨atoiErrMark p0, atoiErrMark p1, atoiErrMark p2⟩)
    | _, _, _ => none
  else some (.ok (now - 300, now))

/-- Model of formatTimeSpan (lines 166-182): renders the window of
timespanInstants as `<start>/<end>` in RFC3339 UTC, or returns `("", err)` on
a parse error; panics propagate.  The source samples the clock once per
boundary a few nanoseconds apart; both samples are modelled as `now`. -/
def formatTimeSpan (now : ℤ) (timeSpan : String) :
    Option (String × Option TimespanErr) :=
  match timespanInstants now timeSpan with
  | none => none
  | some (.err e) => some ("", some e)
  | some (.ok (starttime, endtime)) =>
    some (rfc3339utc starttime ++ "/" ++ rfc3339utc endtime, none)

/-- Model of createMetricsRequest (lines 53-76).  The outer `none` is the
index-out-of-range panic on `resourceInfo[1]` or `resourceInfo[2]` when the
resource URI splits into fewer than three segments — the source performs no
length check before indexing. -/
def createMetricsRequest (now : ℤ) (metadata : azureMonitorMetadata) :
    Option (GoResult TimespanErr azureExternalMetricRequest) :=
  let resourceInfo := goSplit metadata.resourceURI '/'
  match resourceInfo.get? 0, resourceInfo.get? 1, resourceInfo.get? 2 with
  | some ns, some ty, some nm =>
    match formatTimeSpan now metadata.aggregationInterval with
    | none => none
    | some (_, some e) => some (.err e)
    | some (timespan, none) =>
      some (.ok ⟨metadata.name, metadata.subscriptionID, nm, ns, ty,
        metadata.aggregationType, timespan, metadata.filter, metadata.resourceGroupName⟩)
  | _, _, _ => none

/-- The external insights client (client.List): resource URI, timespan,
metric name, aggregation and filter to a response or a transport or
authorization error. -/
def MetricsClient : Type :=
  String → String → String → String → String → GoResult String Response

/-- Model of getAzureMetric (lines 91-111): validate, then query the client,
then extract; every error path returns the float64 value -1, and the
extractValue pair is passed through unchanged. -/
def getAzureMetric (client : MetricsClient)
    (azMetricRequest : azureExternalMetricRequest) : Option (ℚ × Option GetErr) :=
  match azMetricRequest.validate with
  | some e => some (-1, some (.validation e))
  | none =>
    match client azMetricRequest.metricResourceURI azMetricRequest.Timespan
        azMetricRequest.MetricName azMetricRequest.Aggregation azMetricRequest.Filter with
    | .err e => some (-1, some (.query e))
    | .ok metricResult =>
      match extractValue azMetricRequest metricResult with
      | none => none
      | some (v, oe) => some (v, oe.map GetErr.extract)

/-- Model of executeRequest (lines 78-89): on success the float64 metric is
rounded with math.Round and narrowed to int32; on error the int32 value -1
is returned together with the wrapping error. -/
def executeRequest (client : MetricsClient)
    (request : azureExternalMetricRequest) : Option (ℤ × Option ExecErr) :=
  match getAzureMetric client request with
  | none => none
  | some (_, some e) => some (-1, some ⟨request.MetricName, e⟩)
  | some (metricResponse, none) => some (goInt32 (mathRound metricResponse), none)

/-- Model of GetAzureMetricValue (lines 31-41); the insights client built by
createMetricsClient is passed in as `client` and the clock reading as
`now`. -/
def GetAzureMetricValue (now : ℤ) (client : MetricsClient)
    (metricMetadata : azureMonitorMetadata) : Option (ℤ × Option TopErr) :=
  match createMetricsRequest now metricMetadata with
  | none => none
  | some (.err e) => some (-1, some (.create e))
  | some (.ok requestPtr) =>
    match executeRequest client requestPtr with
    | none => none
    | some (v, oe) => some (v, oe.map TopErr.exec)

/-- Modelled from the spec: "each of hours/minutes/seconds is parsed as a
non-negative integer" — a parse accepting exactly a non-empty run of decimal
digits.  This second definition follows the specification wording, for
comparison with goAtoi, which the source actually uses. -/
def specParseNonNeg (s : String) : Option ℕ :=
  if allDecDigits s.data then some (decDigitsVal s.data) else none

/-- Shape of an RFC3339 UTC timestamp `YYYY-MM-DDThh:mm:ssZ` over a character
list: twenty characters, decimal digits at the data positions, fixed
punctuation, and the `Z` (UTC) timezone designator. -/
def checkRFC3339L : List Char → Bool
  | [y1, y2, y3, y4, c1, m1, m2, c2, d1, d2, ct, h1, h2, c3, n1, n2, c4, s1, s2, cz] =>
    y1.isDigit && y2.isDigit && y3.isDigit && y4.isDigit && c1 == '-' &&
    m1.isDigit && m2.isDigit && c2 == '-' && d1.isDigit && d2.isDigit &&
    ct == 'T' && h1.isDigit && h2.isDigit && c3 == ':' && n1.isDigit &&
    n2.isDigit && c4 == ':' && s1.isDigit && s2.isDigit && cz == 'Z'
  | _ => false

/-- Shape check for an RFC3339 UTC timestamp string. -/
def checkRFC3339 (s : String) : Bool := checkRFC3339L s.data

theorem splitChars_ne_nil (sep : Char) (l : List Char) : splitChars sep l ≠ [] := by
  cases l with
  | nil => simp [splitChars]
  | cons c cs =>
    simp only [splitChars]
    cases splitChars sep cs with
    | nil => simp
    | cons p ps =>
      by_cases h : c = sep <;> simp [h]

theorem lastPoint_append (pre : List MetricValue) (p : MetricValue) :
    lastPoint (pre ++ [p]) = some p := by
  induction pre with
  | nil => rfl
  | cons a l ih =>
    unfold lastPoint at ih ⊢
    have hlen : (a :: (l ++ [p]) : List MetricValue).length - 1 =
        ((l ++ [p] : List MetricValue).length - 1) + 1 := by
      simp
    rw [List.cons_append, hlen, List.get?_cons_succ]
    exact ih

theorem floor_add_half (n : ℤ) (d : ℕ) (hd : 0 < d) :
    ⌊(n : ℚ) / (d : ℚ) + 1 / 2⌋ = (2 * n + d) / (2 * (d : ℤ)) := by
  have hd0 : ((d : ℚ)) ≠ 0 := by positivity
  have h1 : (n : ℚ) / (d : ℚ) + 1 / 2 = ((2 * n + (d : ℤ) : ℤ) : ℚ) / ((2 * d : ℕ) : ℚ) := by
    push_cast
    field_simp
    ring
  rw [h1, Rat.floor_intCast_div_natCast]
  push_cast
  rfl

/-- The integer-arithmetic rounding agrees with the floor/ceil formulation of
round-half-away-from-zero. -/
theorem mathRound_eq (x : ℚ) :
    mathRound x = if 0 ≤ x then ⌊x + 1 / 2⌋ else ⌈x - 1 / 2⌉ := by
  have hdpos : 0 < x.den := x.pos
  have hnum : (0 ≤ x.num) ↔ (0 ≤ x) := Rat.num_nonneg
  unfold mathRound
  by_cases h : 0 ≤ x
  · have hfl : ⌊x + 1 / 2⌋ = (2 * x.num + x.den) / (2 * (x.den : ℤ)) := by
      conv_lhs => rw [← Rat.num_div_den x]
      exact floor_add_half x.num x.den hdpos
    rw [if_pos (hnum.mpr h), if_pos h, hfl]
  · have hneg : -x = ((-x.num : ℤ) : ℚ) / ((x.den : ℕ) : ℚ) := by
      conv_lhs => rw [← Rat.num_div_den x]
      push_cast
      ring
    have hceil : ⌈x - 1 / 2⌉ = -⌊-x + 1 / 2⌋ := by
      have : ⌊-(x - 1 / 2)⌋ = -⌈x - 1 / 2⌉ := Int.floor_neg
      have h2 : -(x - 1 / 2) = -x + 1 / 2 := by ring
      rw [h2] at this
      omega
    have hfl : ⌊-x + 1 / 2⌋ = (2 * -x.num + x.den) / (2 * (x.den : ℤ)) := by
      rw [hneg]
      exact floor_add_half (-x.num) x.den hdpos
    rw [if_neg (fun hc => h (hnum.mp hc)), if_neg h, hceil, hfl]

/-- C6: validation checks metricName, then resourceGroup, then
subscriptionID, in that fixed order; exactly the first empty field is
reported (so with all three empty the report is for metricName), and the
subscriptionID message carries the hint "set a default or pass via label
selectors". -/
theorem validate_first_empty_field_wins :
    (∀ amr : azureExternalMetricRequest, amr.MetricName = "" →
      amr.validate = some "metricName is required") ∧
    (∀ amr : azureExternalMetricRequest, amr.MetricName ≠ "" → amr.ResourceGroup = "" →
      amr.validate = some "resourceGroup is required") ∧
    (∀ amr : azureExternalMetricRequest, amr.MetricName ≠ "" → amr.ResourceGroup ≠ "" →
      amr.SubscriptionID = "" →
      amr.validate =
        some "subscriptionID is required. set a default or pass via label selectors") ∧
    (∀ amr : azureExternalMetricRequest, amr.MetricName ≠ "" → amr.ResourceGroup ≠ "" →
      amr.SubscriptionID ≠ "" → amr.validate = none) := by
  refine ⟨?_, ?_, ?_, ?_⟩ <;>
    (intro amr; intros; simp [azureExternalMetricRequest.validate, *])

/-- C6 witness: with all three required fields empty, the reported missing
field is metricName. -/
theorem validate_first_empty_field_wins_witness :
    ((⟨"", "", "q1", "Microsoft.Storage", "queueServices", "Average", "", "", ""⟩ :
      azureExternalMetricRequest).MetricName = "") ∧
    (⟨"", "", "q1", "Microsoft.Storage", "queueServices", "Average", "", "", ""⟩ :
      azureExternalMetricRequest).validate = some "metricName is required" :=
  ⟨rfl, validate_first_empty_field_wins.1 _ rfl⟩

/-- C8: required-field validation runs before the network call: on a request
with an empty metricName, resourceGroup or subscriptionID, getAzureMetric
returns the validation error and its result does not depend on the client,
which is therefore never consulted. -/
theorem validation_precedes_network_call :
    ∀ amr : azureExternalMetricRequest,
      (amr.MetricName = "" ∨ amr.ResourceGroup = "" ∨ amr.SubscriptionID = "") →
      ∀ c1 c2 : MetricsClient,
        getAzureMetric c1 amr = getAzureMetric c2 amr ∧
        ∃ msg, getAzureMetric c1 amr = some (-1, some (.validation msg)) := by
  intro amr h c1 c2
  have hv : ∃ msg, amr.validate = some msg := by
    unfold azureExternalMetricRequest.validate
    rcases h with h | h | h <;> (repeat' split) <;> simp_all
  obtain ⟨msg, hm⟩ := hv
  refine ⟨?_, msg, ?_⟩ <;> (unfold getAzureMetric; rw [hm])

/-- C8 witness: a request with empty metricName yields the validation error
under two clients with different behaviors. -/
theorem validation_precedes_network_call_witness :
    ((⟨"", "s1", "q1", "Microsoft.Storage", "queueServices", "Average", "", "", "g1"⟩ :
        azureExternalMetricRequest).MetricName = "" ∨
      (⟨"", "s1", "q1", "Microsoft.Storage", "queueServices", "Average", "", "", "g1"⟩ :
        azureExternalMetricRequest).ResourceGroup = "" ∨
      (⟨"", "s1", "q1", "Microsoft.Storage", "queueServices", "Average", "", "", "g1"⟩ :
        azureExternalMetricRequest).SubscriptionID = "") ∧
    (getAzureMetric (fun _ _ _ _ _ => .err "down")
        ⟨"", "s1", "q1", "Microsoft.Storage", "queueServices", "Average", "", "", "g1"⟩ =
      getAzureMetric (fun _ _ _ _ _ => .ok ⟨none⟩)
        ⟨"", "s1", "q1", "Microsoft.Storage", "queueServices", "Average", "", "", "g1"⟩ ∧
      ∃ msg, getAzureMetric (fun _ _ _ _ _ => .err "down")
        ⟨"", "s1", "q1", "Microsoft.Storage", "queueServices", "Average", "", "", "g1"⟩ =
          some (-1, some (.validation msg))) :=
  ⟨Or.inl rfl, validation_precedes_network_call _ (Or.inl rfl) _ _⟩

/-- C2 (the code evaluated on both sides of the claim): with exactly three
`/`-separated segments the decomposition yields (namespace, type, name); with
fewer than three segments the source panics with an index out of range on the
unchecked split — it does not return a MalformedResourceIdentifier error. -/
theorem resourceURI_decomposition :
    (∀ (now : ℤ) (md : azureMonitorMetadata) (ns ty nm : String),
      goSplit md.resourceURI '/' = [ns, ty, nm] → md.aggregationInterval = "" →
      createMetricsRequest now md = some (.ok ⟨md.name, md.subscriptionID, nm, ns, ty,
        md.aggregationType, rfc3339utc (now - 300) ++ "/" ++ rfc3339utc now, md.filter,
        md.resourceGroupName⟩)) ∧
    (∀ (now : ℤ) (md : azureMonitorMetadata),
      (goSplit md.resourceURI '/').length < 3 → createMetricsRequest now md = none) := by
  constructor
  · intro now md ns ty nm hsplit hint
    simp [createMetricsRequest, hsplit, hint, formatTimeSpan, timespanInstants]
  · intro now md hlen
    have h2 : (goSplit md.resourceURI '/').get? 2 = none := by
      rw [List.get?_eq_none]
      omega
    simp only [List.get?_eq_getElem?] at h2
    cases h0 : (goSplit md.resourceURI '/')[0]? <;>
      cases h1 : (goSplit md.resourceURI '/')[1]? <;>
        simp [createMetricsRequest, h0, h1, h2]

/-- C2 witness: a three-segment identifier decomposes into its segments, and
the one-segment identifier "Microsoft.Storage" makes createMetricsRequest
panic (index out of range), not return an error. -/
theorem resourceURI_decomposition_witness :
    (goSplit "Microsoft.Storage/queueServices/q1" '/' =
      ["Microsoft.Storage", "queueServices", "q1"]) ∧
    createMetricsRequest 1700000000
      ⟨"Length", "s1", "g1", "Microsoft.Storage/queueServices/q1", "Average", "", ""⟩ =
      some (.ok ⟨"Length", "s1", "q1", "Microsoft.Storage", "queueServices", "Average",
        rfc3339utc (1700000000 - 300) ++ "/" ++ rfc3339utc 1700000000, "", "g1"⟩) ∧
    createMetricsRequest 1700000000
      ⟨"Length", "s1", "g1", "Microsoft.Storage", "Average", "", ""⟩ = none :=
  ⟨by decide, resourceURI_decomposition.1 1700000000 _ _ _ _ (by decide) rfl,
    resourceURI_decomposition.2 1700000000 _ (by decide)⟩

/-- C10: with three or more `/`-separated segments the decomposition does not
fail: the first three segments become provider namespace, resource type and
resource name, and any remaining segments are silently ignored (the result
only mentions the first three). -/
theorem resourceURI_extra_segments_ignored :
    ∀ (now : ℤ) (md : azureMonitorMetadata) (ns ty nm : String) (rest : List String),
      goSplit md.resourceURI '/' = ns :: ty :: nm :: rest →
      md.aggregationInterval = "" →
      createMetricsRequest now md = some (.ok ⟨md.name, md.subscriptionID, nm, ns, ty,
        md.aggregationType, rfc3339utc (now - 300) ++ "/" ++ rfc3339utc now, md.filter,
        md.resourceGroupName⟩) := by
  intro now md ns ty nm rest hsplit hint
  simp [createMetricsRequest, hsplit, hint, formatTimeSpan, timespanInstants]

/-- C10 witness: a five-segment identifier decomposes without failure into
its first three segments, the trailing two being ignored. -/
theorem resourceURI_extra_segments_ignored_witness :
    (goSplit "Microsoft.Storage/queueServices/q1/extra/junk" '/' =
      "Microsoft.Storage" :: "queueServices" :: "q1" :: ["extra", "junk"]) ∧
    createMetricsRequest 1700000000
      ⟨"Length", "s1", "g1", "Microsoft.Storage/queueServices/q1/extra/junk",
        "Average", "", ""⟩ =
      some (.ok ⟨"Length", "s1", "q1", "Microsoft.Storage", "queueServices", "Average",
        rfc3339utc (1700000000 - 300) ++ "/" ++ rfc3339utc 1700000000, "", "g1"⟩) :=
  ⟨by decide, resourceURI_extra_segments_ignored 1700000000
    ⟨"Length", "s1", "g1", "Microsoft.Storage/queueServices/q1/extra/junk", "Average", "", ""⟩
    "Microsoft.Storage" "queueServices" "q1" ["extra", "junk"] (by decide) rfl⟩

/-- C1 (the code evaluated at the claim's inputs): a present-but-empty
time-series slice makes extractValue panic indexing `timeseries[0]` (the nil
check does not catch a non-nil empty slice), a nil outer `Value` pointer
makes it panic on dereference (instead of EmptyMetricResponse), and a
present-but-empty data-point slice makes it panic inside
`data[len(data)-1]`; only the nil-slice and empty-outer cases fail
explicitly — in particular an empty outer sequence does yield
EmptyMetricResponse, not NoTimeseries. -/
theorem extractValue_empty_levels :
    extractValue ⟨"Length", "s1", "q1", "Microsoft.Storage", "queueServices",
        "Average", "", "", "g1"⟩
      ⟨some (.mk [⟨some (GoSlice.mk [])⟩])⟩ = none ∧
    extractValue ⟨"Length", "s1", "q1", "Microsoft.Storage", "queueServices",
        "Average", "", "", "g1"⟩ ⟨none⟩ = none ∧
    extractValue ⟨"Length", "s1", "q1", "Microsoft.Storage", "queueServices",
        "Average", "", "", "g1"⟩
      ⟨some (.mk [⟨some (GoSlice.mk [⟨some (GoSlice.mk [])⟩])⟩])⟩ = none ∧
    extractValue ⟨"Length", "s1", "q1", "Microsoft.Storage", "queueServices",
        "Average", "", "", "g1"⟩ ⟨some (.mk [])⟩ =
      some (-1, some (.emptyMetricResponse "Microsoft.Storage" "Length" "AVERAGE")) ∧
    extractValue ⟨"Length", "s1", "q1", "Microsoft.Storage", "queueServices",
        "Average", "", "", "g1"⟩ ⟨some .nilSlice⟩ =
      some (-1, some (.emptyMetricResponse "Microsoft.Storage" "Length" "AVERAGE")) := by
  refine ⟨rfl, rfl, rfl, ?_, ?_⟩ <;> decide

theorem executeRequest_err_is_minus_one (client : MetricsClient)
    (request : azureExternalMetricRequest) (v : ℤ) (e : ExecErr)
    (h : executeRequest client request = some (v, some e)) : v = -1 := by
  unfold executeRequest at h
  cases hg : getAzureMetric client request with
  | none => rw [hg] at h; exact absurd h (by simp)
  | some p =>
    obtain ⟨w, oe⟩ := p
    rw [hg] at h
    cases oe with
    | none => simp at h
    | some e0 => simp at h; exact h.1.symm

/-- C9: whenever any stage fails, GetAzureMetricValue returns the sentinel
value -1 alongside the non-nil error; and a legitimate reading of -1
produces the same first component with no error, so a caller ignoring the
error component cannot tell the two apart. -/
theorem sentinel_minus_one_on_error :
    (∀ (now : ℤ) (client : MetricsClient) (md : azureMonitorMetadata) (v : ℤ) (e : TopErr),
      GetAzureMetricValue now client md = some (v, some e) → v = -1) ∧
    GetAzureMetricValue 300
      (fun _ _ _ _ _ => .ok ⟨some (.mk [⟨some (GoSlice.mk
        [⟨some (GoSlice.mk [⟨some (-1), none, none, none, none⟩])⟩])⟩])⟩)
      ⟨"Length", "s1", "g1", "Microsoft.Storage/queueServices/q1", "Average", "", ""⟩ =
      some (-1, none) ∧
    GetAzureMetricValue 300 (fun _ _ _ _ _ => .err "boom")
      ⟨"Length", "s1", "g1", "Microsoft.Storage/queueServices/q1", "Average", "", ""⟩ =
      some (-1, some (.exec ⟨"Length", .query "boom"⟩)) := by
  refine ⟨?_, by decide, by decide⟩
  intro now client md v e h
  unfold GetAzureMetricValue at h
  cases hc : createMetricsRequest now md with
  | none => simp [hc] at h
  | some r =>
    cases r with
    | err e0 =>
      simp [hc] at h
      omega
    | ok req =>
      simp only [hc] at h
      cases he : executeRequest client req with
      | none => simp [he] at h
      | some p =>
        obtain ⟨w, oe⟩ := p
        simp only [he] at h
        cases oe with
        | none => simp at h
        | some e1 =>
          simp at h
          have := executeRequest_err_is_minus_one client req w e1 he
          omega

/-- C9 witness: a failing query stage at a concrete input returns the pair
(-1, error). -/
theorem sentinel_minus_one_on_error_witness :
    (GetAzureMetricValue 300 (fun _ _ _ _ _ => .err "boom")
      ⟨"Length", "s1", "g1", "Microsoft.Storage/queueServices/q1", "Average", "", ""⟩ =
      some (-1, some (.exec ⟨"Length", .query "boom"⟩))) ∧ (-1 : ℤ) = -1 :=
  ⟨by decide, sentinel_minus_one_on_error.1 300 (fun _ _ _ _ _ => .err "boom")
    ⟨"Length", "s1", "g1", "Microsoft.Storage/queueServices/q1", "Average", "", ""⟩
    (-1) (.exec ⟨"Length", .query "boom"⟩) (by decide)⟩

/-- C4: on a successful query the scaling signal is the extracted float
rounded to the nearest integer with ties half away from zero (mathRound is
the floor/ceil round-half-away rule, lies within 1/2 of its input, and moves
exact halves away from zero), then narrowed to int32 (the identity on the
int32 range); in particular 4.4 → 4, 4.5 → 5, -4.5 → -5 and -4.4 → -4. -/
theorem signal_rounding :
    (∀ (client : MetricsClient) (request : azureExternalMetricRequest) (x : ℚ),
      getAzureMetric client request = some (x, none) →
      executeRequest client request = some (goInt32 (mathRound x), none)) ∧
    (∀ x : ℚ, |x - (mathRound x : ℚ)| ≤ 1 / 2) ∧
    (∀ k : ℤ, mathRound ((k : ℚ) + 1 / 2) = if 0 ≤ k then k + 1 else k) ∧
    (∀ z : ℤ, -(2 ^ 31) ≤ z → z < 2 ^ 31 → goInt32 z = z) ∧
    goInt32 (mathRound (44 / 10)) = 4 ∧ goInt32 (mathRound (45 / 10)) = 5 ∧
    goInt32 (mathRound (-45 / 10)) = -5 ∧ goInt32 (mathRound (-44 / 10)) = -4 := by
  refine ⟨?_, ?_, ?_, ?_, ?_, ?_, ?_, ?_⟩
  · intro client request x h
    unfold executeRequest
    rw [h]
  · intro x
    rw [mathRound_eq]
    by_cases h : 0 ≤ x
    · have h1 : (⌊x + 1 / 2⌋ : ℚ) ≤ x + 1 / 2 := Int.floor_le _
      have h2 : x + 1 / 2 < ⌊x + 1 / 2⌋ + 1 := Int.lt_floor_add_one _
      rw [if_pos h, abs_sub_le_iff]
      constructor <;> linarith
    · have h1 : x - 1 / 2 ≤ (⌈x - 1 / 2⌉ : ℚ) := Int.le_ceil _
      have h2 : (⌈x - 1 / 2⌉ : ℚ) < x - 1 / 2 + 1 := Int.ceil_lt_add_one _
      rw [if_neg h, abs_sub_le_iff]
      constructor <;> linarith
  · intro k
    rw [mathRound_eq]
    by_cases h : 0 ≤ k
    · have hk : (0 : ℚ) ≤ (k : ℚ) + 1 / 2 := by
        have hq : (0 : ℚ) ≤ (k : ℚ) := by exact_mod_cast h
        linarith
      have he : (k : ℚ) + 1 / 2 + 1 / 2 = ((k + 1 : ℤ) : ℚ) := by push_cast; ring
      rw [if_pos hk, if_pos h, he, Int.floor_intCast]
    · have hk1 : k ≤ -1 := by omega
      have hk : ¬ (0 : ℚ) ≤ (k : ℚ) + 1 / 2 := by
        have hq : (k : ℚ) ≤ -1 := by exact_mod_cast hk1
        intro hc
        linarith
      have he : (k : ℚ) + 1 / 2 - 1 / 2 = ((k : ℤ) : ℚ) := by ring
      rw [if_neg hk, if_neg h, he, Int.ceil_intCast]
  · intro z h1 h2
    unfold goInt32
    omega
  · rw [mathRound_eq]
    norm_num [goInt32]
  · rw [mathRound_eq]
    norm_num [goInt32]
  · rw [mathRound_eq, if_neg (by norm_num),
      show ((-45 : ℚ) / 10 - 1 / 2) = ((-5 : ℤ) : ℚ) by norm_num, Int.ceil_intCast]
    decide
  · rw [mathRound_eq, if_neg (by norm_num),
      show ((-44 : ℚ) / 10 - 1 / 2) = -((49 : ℚ) / 10) by norm_num, Int.ceil_neg,
      show ⌊(49 : ℚ) / 10⌋ = 4 by norm_num]
    decide

/-- C4 witness: the end-to-end example — a response whose single data point
has Average 12.6 yields the signal round(12.6) = 13. -/
theorem signal_rounding_witness :
    (getAzureMetric
      (fun _ _ _ _ _ => .ok ⟨some (.mk [⟨some (GoSlice.mk
        [⟨some (GoSlice.mk [⟨some (mkRat 63 5), none, none, none, none⟩])⟩])⟩])⟩)
      ⟨"Length", "s1", "q1", "Microsoft.Storage", "queueServices", "Average", "", "", "g1"⟩ =
      some (mkRat 63 5, none)) ∧
    executeRequest
      (fun _ _ _ _ _ => .ok ⟨some (.mk [⟨some (GoSlice.mk
        [⟨some (GoSlice.mk [⟨some (mkRat 63 5), none, none, none, none⟩])⟩])⟩])⟩)
      ⟨"Length", "s1", "q1", "Microsoft.Storage", "queueServices", "Average", "", "", "g1"⟩ =
      some (goInt32 (mathRound (mkRat 63 5)), none) :=
  ⟨by decide, signal_rounding.1
    (fun _ _ _ _ _ => .ok ⟨some (.mk [⟨some (GoSlice.mk
      [⟨some (GoSlice.mk [⟨some (mkRat 63 5), none, none, none, none⟩])⟩])⟩])⟩)
    ⟨"Length", "s1", "q1", "Microsoft.Storage", "queueServices", "Average", "", "", "g1"⟩
    (mkRat 63 5) (by decide)⟩

set_option maxRecDepth 8192 in
/-- C5 counterexample, two concrete divergences from the claim as stated.
First, the hours component "-1" is not a non-negative integer — the
spec-modelled non-negative parse rejects it — yet the source parses it with
Atoi (which accepts a sign) and succeeds, producing the inverted window
[now + 3600, now] instead of failing with a TimespanParseError.  Second,
the components of "3000000:0:0" all parse as non-negative integers, but the
duration 3000000 hours overflows int64 nanoseconds and wraps, so the
window start is now + 7646744073 seconds rather than the claim's
now − 3000000·3600 seconds. -/
theorem negative_interval_component_accepted :
    specParseNonNeg "-1" = none ∧ goAtoi "-1" = some (-1) ∧
    timespanInstants 1700000000 "-1:0:0" = some (.ok (1700000000 + 3600, 1700000000)) ∧
    formatTimeSpan 1700000000 "-1:0:0" =
      some (rfc3339utc (1700000000 + 3600) ++ "/" ++ rfc3339utc 1700000000, none) ∧
    goAtoi "3000000" = some 3000000 ∧
    timespanInstants 1700000000 "3000000:0:0" =
      some (.ok (1700000000 + 7646744073, 1700000000)) ∧
    (1700000000 : ℤ) + 7646744073 ≠ 1700000000 - 3000000 * 3600 := by
  refine ⟨rfl, by decide, by decide, by decide, by decide, by decide, by decide⟩

theorem wrap64_eq_of_abs_lt {z : ℤ} (h : |z| < 2 ^ 63) : wrap64 z = z := by
  rw [abs_lt] at h
  unfold wrap64
  omega

/-- C5 amended: each H:M:S component is parsed with Go strconv.Atoi, which
accepts signed integers; if all three parse (negative values included) and
the int64 nanosecond duration arithmetic does not overflow — each product
H·3.6e12, M·6e10, S·1e9 and each partial sum staying below 2^63 in absolute
value — the window is [now − (H·3600 + M·60 + S), now]; overflowing
durations wrap as Go int64 (see the counterexample); if any component fails
to parse the formatter fails with a single TimespanParseError whose slots
name exactly the failing component(s). -/
theorem interval_parsing (now : ℤ) (timeSpan p0 p1 p2 : String) (rest : List String)
    (hts : timeSpan ≠ "") (hsplit : goSplit timeSpan ':' = p0 :: p1 :: p2 :: rest) :
    (∀ hours minutes seconds : ℤ, goAtoi p0 = some hours → goAtoi p1 = some minutes →
      goAtoi p2 = some seconds →
      |hours * 3600000000000| < 2 ^ 63 → |minutes * 60000000000| < 2 ^ 63 →
      |seconds * 1000000000| < 2 ^ 63 →
      |hours * 3600000000000 + minutes * 60000000000| < 2 ^ 63 →
      |hours * 3600000000000 + minutes * 60000000000 + seconds * 1000000000| < 2 ^ 63 →
      formatTimeSpan now timeSpan =
        some (rfc3339utc (now - (hours * 3600 + minutes * 60 + seconds)) ++ "/" ++
          rfc3339utc now, none)) ∧
    (((goAtoi p0).isNone ∨ (goAtoi p1).isNone ∨ (goAtoi p2).isNone) →
      formatTimeSpan now timeSpan =
        some ("", some ⟨atoiErrMark p0, atoiErrMark p1, atoiErrMark p2⟩)) := by
  constructor
  · intro hours minutes seconds h0 h1 h2 hbh hbm hbs hbp hbt
    have edur : goDurationNs hours minutes seconds =
        hours * 3600000000000 + minutes * 60000000000 + seconds * 1000000000 := by
      unfold goDurationNs
      rw [wrap64_eq_of_abs_lt hbh, wrap64_eq_of_abs_lt hbm, wrap64_eq_of_abs_lt hbs,
        wrap64_eq_of_abs_lt hbp, wrap64_eq_of_abs_lt hbt]
    have eneg : wrap64 (-goDurationNs hours minutes seconds) =
        -(hours * 3600000000000 + minutes * 60000000000 + seconds * 1000000000) := by
      rw [edur]
      exact wrap64_eq_of_abs_lt (by rwa [abs_neg])
    have ediv : (-(hours * 3600000000000 + minutes * 60000000000 +
        seconds * 1000000000)).fdiv 1000000000 =
        -(hours * 3600 + minutes * 60 + seconds) := by
      have hmul : -(hours * 3600000000000 + minutes * 60000000000 +
          seconds * 1000000000) =
          -(hours * 3600 + minutes * 60 + seconds) * 1000000000 := by ring
      rw [hmul, Int.mul_fdiv_cancel _ (by norm_num)]
    have estart : now + (wrap64 (-goDurationNs hours minutes seconds)).fdiv 1000000000 =
        now - (hours * 3600 + minutes * 60 + seconds) := by
      rw [eneg, ediv]
      ring
    simp [formatTimeSpan, timespanInstants, hts, hsplit, h0, h1, h2, estart]
  · intro hfail
    cases ha : goAtoi p0 <;> cases hb : goAtoi p1 <;> cases hc : goAtoi p2 <;>
      simp_all [formatTimeSpan, timespanInstants, atoiErrMark, hts, hsplit]

/-- C5 witness: "x:0:0" fails naming the hours component; "1:30:0" (whose
duration does not overflow) yields the 90-minute window. -/
theorem interval_parsing_witness :
    (goSplit "x:0:0" ':' = ["x", "0", "0"]) ∧
    formatTimeSpan 1700000000 "x:0:0" = some ("", some ⟨some "x", none, none⟩) ∧
    formatTimeSpan 1700000000 "1:30:0" =
      some (rfc3339utc (1700000000 - (1 * 3600 + 30 * 60 + 0)) ++ "/" ++
        rfc3339utc 1700000000, none) :=
  ⟨by decide,
    (interval_parsing 1700000000 "x:0:0" "x" "0" "0" [] (by decide) (by decide)).2
      (Or.inl (by decide)),
    (interval_parsing 1700000000 "1:30:0" "1" "30" "0" [] (by decide) (by decide)).1
      1 30 0 (by decide) (by decide) (by decide) (by decide) (by decide) (by decide)
      (by decide) (by decide)⟩

theorem decDigit_isDigit (n : ℕ) : (decDigit n).isDigit = true := by
  have h : n % 10 < 10 := Nat.mod_lt _ (by norm_num)
  have hall : ∀ k, k < 10 → (Char.ofNat (48 + k)).isDigit = true := by decide
  unfold decDigit
  exact hall _ h

theorem checkRFC3339_rfc3339utc (t : ℤ) : checkRFC3339 (rfc3339utc t) = true := by
  simp [checkRFC3339, rfc3339utc, pad4, pad2, checkRFC3339L, decDigit_isDigit]

/-- C7: with an absent/empty interval the computed window is
[now − 300 seconds, now] — five minutes long — and the output is
`<start>/<end>` with both boundaries RFC3339 UTC timestamps carrying the Z
designator (the hypotheses keep `now` in the range where the timestamp model
is faithful: after 1970 and before year 10000). -/
theorem default_timespan (now : ℤ) (_hlo : 300 ≤ now) (_hhi : now ≤ 253402300799) :
    timespanInstants now "" = some (.ok (now - 300, now)) ∧
    now - (now - 300) = 5 * 60 ∧
    formatTimeSpan now "" =
      some (rfc3339utc (now - 300) ++ "/" ++ rfc3339utc now, none) ∧
    checkRFC3339 (rfc3339utc (now - 300)) = true ∧
    checkRFC3339 (rfc3339utc now) = true := by
  refine ⟨by simp [timespanInstants], by omega,
    by simp [formatTimeSpan, timespanInstants],
    checkRFC3339_rfc3339utc _, checkRFC3339_rfc3339utc _⟩

/-- C7 witness: the default five-minute window at a concrete instant. -/
theorem default_timespan_witness :
    ((300 : ℤ) ≤ 1700000000 ∧ (1700000000 : ℤ) ≤ 253402300799) ∧
    (timespanInstants 1700000000 "" = some (.ok (1700000000 - 300, 1700000000)) ∧
      (1700000000 : ℤ) - (1700000000 - 300) = 5 * 60 ∧
      formatTimeSpan 1700000000 "" =
        some (rfc3339utc (1700000000 - 300) ++ "/" ++ rfc3339utc 1700000000, none) ∧
      checkRFC3339 (rfc3339utc (1700000000 - 300)) = true ∧
      checkRFC3339 (rfc3339utc 1700000000) = true) :=
  ⟨⟨by decide, by decide⟩, default_timespan 1700000000 (by decide) (by decide)⟩

theorem verifyBranch_ok_congr (mode : String) (field : MetricValue → Option ℚ)
    (a b : String) (data : List MetricValue)
    (next1 next2 : Option (GoResult VerifyErr ℚ)) (hlow : goToLower a = goToLower b)
    (hnext : ∀ w : ℚ, next1 = some (.ok w) ↔ next2 = some (.ok w)) (v : ℚ) :
    verifyBranch mode field a data next1 = some (.ok v) ↔
    verifyBranch mode field b data next2 = some (.ok v) := by
  unfold verifyBranch
  simp only [goEqualFold, hlow]
  by_cases hc : (goToLower mode == goToLower b) = true
  · simp only [hc, if_true]
    cases hl : lastPoint data with
    | none => simp
    | some p =>
      cases hf : field p with
      | none => simpa [hf] using hnext v
      | some w => simp [hf]
  · simp only [Bool.not_eq_true] at hc
    simp only [hc, Bool.false_eq_true, if_false]
    exact hnext v

/-- C3: extraction consults only the last data point of a non-empty
sequence; the mode name is matched case-insensitively against the five
modes (equal ASCII case foldings select the same value); each of
Average/Total/Maximum/Minimum returns its float field of the last point when
present, Count returns its integer field converted to float when present;
when the matching field of the last point is absent, or the mode is none of
the five, the result is the unsupported-aggregation error naming the
(ToTitle-cased) requested mode. -/
theorem aggregation_selection :
    (∀ (agg : String) (pre : List MetricValue) (p : MetricValue),
      verifyAggregationTypeIsSupported agg (pre ++ [p]) =
        verifyAggregationTypeIsSupported agg [p]) ∧
    (∀ (a b : String) (data : List MetricValue) (v : ℚ), goToLower a = goToLower b →
      (verifyAggregationTypeIsSupported a data = some (.ok v) ↔
        verifyAggregationTypeIsSupported b data = some (.ok v))) ∧
    (∀ (agg : String) (data : List MetricValue) (p : MetricValue),
      goToLower agg = "average" → lastPoint data = some p →
      verifyAggregationTypeIsSupported agg data =
        p.Average.elim (some (.err ⟨goToTitle agg⟩)) (fun v => some (.ok v))) ∧
    (∀ (agg : String) (data : List MetricValue) (p : MetricValue),
      goToLower agg = "total" → lastPoint data = some p →
      verifyAggregationTypeIsSupported agg data =
        p.Total.elim (some (.err ⟨goToTitle agg⟩)) (fun v => some (.ok v))) ∧
    (∀ (agg : String) (data : List MetricValue) (p : MetricValue),
      goToLower agg = "maximum" → lastPoint data = some p →
      verifyAggregationTypeIsSupported agg data =
        p.Maximum.elim (some (.err ⟨goToTitle agg⟩)) (fun v => some (.ok v))) ∧
    (∀ (agg : String) (data : List MetricValue) (p : MetricValue),
      goToLower agg = "minimum" → lastPoint data = some p →
      verifyAggregationTypeIsSupported agg data =
        p.Minimum.elim (some (.err ⟨goToTitle agg⟩)) (fun v => some (.ok v))) ∧
    (∀ (agg : String) (data : List MetricValue) (p : MetricValue),
      goToLower agg = "count" → lastPoint data = some p →
      verifyAggregationTypeIsSupported agg data =
        p.Count.elim (some (.err ⟨goToTitle agg⟩)) (fun c => some (.ok (c : ℚ)))) ∧
    (∀ (agg : String) (data : List MetricValue),
      goToLower agg ∉ (["average", "total", "maximum", "minimum", "count"] : List String) →
      verifyAggregationTypeIsSupported agg data = some (.err ⟨goToTitle agg⟩)) := by
  refine ⟨?_, ?_, ?_, ?_, ?_, ?_, ?_, ?_⟩
  · intro agg pre p
    have h1 : lastPoint (pre ++ [p]) = some p := lastPoint_append pre p
    have h2 : lastPoint [p] = some p := rfl
    unfold verifyAggregationTypeIsSupported verifyBranch
    rw [h1, h2]
  · intro a b data v hlow
    unfold verifyAggregationTypeIsSupported
    refine verifyBranch_ok_congr _ _ _ _ _ _ _ hlow (fun w1 => ?_) v
    refine verifyBranch_ok_congr _ _ _ _ _ _ _ hlow (fun w2 => ?_) w1
    refine verifyBranch_ok_congr _ _ _ _ _ _ _ hlow (fun w3 => ?_) w2
    refine verifyBranch_ok_congr _ _ _ _ _ _ _ hlow (fun w4 => ?_) w3
    refine verifyBranch_ok_congr _ _ _ _ _ _ _ hlow (fun w5 => ?_) w4
    simp
  · intro agg data p hlow hlast
    have c1 : goEqualFold "Average" agg = true := by
      simp only [goEqualFold]; rw [hlow]; decide
    have c2 : goEqualFold "Total" agg = false := by
      simp only [goEqualFold]; rw [hlow]; decide
    have c3 : goEqualFold "Maximum" agg = false := by
      simp only [goEqualFold]; rw [hlow]; decide
    have c4 : goEqualFold "Minimum" agg = false := by
      simp only [goEqualFold]; rw [hlow]; decide
    have c5 : goEqualFold "Count" agg = false := by
      simp only [goEqualFold]; rw [hlow]; decide
    cases hp : p.Average <;>
      simp [verifyAggregationTypeIsSupported, verifyBranch, c1, c2, c3, c4, c5, hlast, hp]
  · intro agg data p hlow hlast
    have c1 : goEqualFold "Average" agg = false := by
      simp only [goEqualFold]; rw [hlow]; decide
    have c2 : goEqualFold "Total" agg = true := by
      simp only [goEqualFold]; rw [hlow]; decide
    have c3 : goEqualFold "Maximum" agg = false := by
      simp only [goEqualFold]; rw [hlow]; decide
    have c4 : goEqualFold "Minimum" agg = false := by
      simp only [goEqualFold]; rw [hlow]; decide
    have c5 : goEqualFold "Count" agg = false := by
      simp only [goEqualFold]; rw [hlow]; decide
    cases hp : p.Total <;>
      simp [verifyAggregationTypeIsSupported, verifyBranch, c1, c2, c3, c4, c5, hlast, hp]
  · intro agg data p hlow hlast
    have c1 : goEqualFold "Average" agg = false := by
      simp only [goEqualFold]; rw [hlow]; decide
    have c2 : goEqualFold "Total" agg = false := by
      simp only [goEqualFold]; rw [hlow]; decide
    have c3 : goEqualFold "Maximum" agg = true := by
      simp only [goEqualFold]; rw [hlow]; decide
    have c4 : goEqualFold "Minimum" agg = false := by
      simp only [goEqualFold]; rw [hlow]; decide
    have c5 : goEqualFold "Count" agg = false := by
      simp only [goEqualFold]; rw [hlow]; decide
    cases hp : p.Maximum <;>
      simp [verifyAggregationTypeIsSupported, verifyBranch, c1, c2, c3, c4, c5, hlast, hp]
  · intro agg data p hlow hlast
    have c1 : goEqualFold "Average" agg = false := by
      simp only [goEqualFold]; rw [hlow]; decide
    have c2 : goEqualFold "Total" agg = false := by
      simp only [goEqualFold]; rw [hlow]; decide
    have c3 : goEqualFold "Maximum" agg = false := by
      simp only [goEqualFold]; rw [hlow]; decide
    have c4 : goEqualFold "Minimum" agg = true := by
      simp only [goEqualFold]; rw [hlow]; decide
    have c5 : goEqualFold "Count" agg = false := by
      simp only [goEqualFold]; rw [hlow]; decide
    cases hp : p.Minimum <;>
      simp [verifyAggregationTypeIsSupported, verifyBranch, c1, c2, c3, c4, c5, hlast, hp]
  · intro agg data p hlow hlast
    have c1 : goEqualFold "Average" agg = false := by
      simp only [goEqualFold]; rw [hlow]; decide
    have c2 : goEqualFold "Total" agg = false := by
      simp only [goEqualFold]; rw [hlow]; decide
    have c3 : goEqualFold "Maximum" agg = false := by
      simp only [goEqualFold]; rw [hlow]; decide
    have c4 : goEqualFold "Minimum" agg = false := by
      simp only [goEqualFold]; rw [hlow]; decide
    have c5 : goEqualFold "Count" agg = true := by
      simp only [goEqualFold]; rw [hlow]; decide
    cases hp : p.Count <;>
      simp [verifyAggregationTypeIsSupported, verifyBranch, c1, c2, c3, c4, c5, hlast, hp]
  · intro agg data hmem
    simp only [List.mem_cons, List.not_mem_nil, or_false, not_or] at hmem
    obtain ⟨h1, h2, h3, h4, h5⟩ := hmem
    have c1 : goEqualFold "Average" agg = false := by
      simp only [goEqualFold]
      rw [show goToLower "Average" = "average" from by decide]
      exact beq_eq_false_iff_ne.mpr (fun hc => h1 hc.symm)
    have c2 : goEqualFold "Total" agg = false := by
      simp only [goEqualFold]
      rw [show goToLower "Total" = "total" from by decide]
      exact beq_eq_false_iff_ne.mpr (fun hc => h2 hc.symm)
    have c3 : goEqualFold "Maximum" agg = false := by
      simp only [goEqualFold]
      rw [show goToLower "Maximum" = "maximum" from by decide]
      exact beq_eq_false_iff_ne.mpr (fun hc => h3 hc.symm)
    have c4 : goEqualFold "Minimum" agg = false := by
      simp only [goEqualFold]
      rw [show goToLower "Minimum" = "minimum" from by decide]
      exact beq_eq_false_iff_ne.mpr (fun hc => h4 hc.symm)
    have c5 : goEqualFold "Count" agg = false := by
      simp only [goEqualFold]
      rw [show goToLower "Count" = "count" from by decide]
      exact beq_eq_false_iff_ne.mpr (fun hc => h5 hc.symm)
    simp [verifyAggregationTypeIsSupported, verifyBranch, c1, c2, c3, c4, c5]

/-- C3 witness: a last data point with only Count = 7 yields 7.0 when Count
is requested and the unsupported-aggregation error when Average is
requested (case-insensitively). -/
theorem aggregation_selection_witness :
    (goToLower "Count" = "count" ∧ goToLower "AVERAGE" = "average" ∧
      lastPoint [⟨none, none, none, none, some 7⟩] =
        some ⟨none, none, none, none, some 7⟩) ∧
    verifyAggregationTypeIsSupported "Count"
      [⟨none, none, none, none, some 7⟩] = some (.ok ((7 : ℤ) : ℚ)) ∧
    verifyAggregationTypeIsSupported "AVERAGE"
      [⟨none, none, none, none, some 7⟩] = some (.err ⟨goToTitle "AVERAGE"⟩) :=
  ⟨⟨by decide, by decide, rfl⟩,
    aggregation_selection.2.2.2.2.2.2.1 "Count" [⟨none, none, none, none, some 7⟩]
      ⟨none, none, none, none, some 7⟩ (by decide) rfl,
    aggregation_selection.2.2.1 "AVERAGE" [⟨none, none, none, none, some 7⟩]
      ⟨none, none, none, none, some 7⟩ (by decide) rfl⟩
